import Mathlib

/-!
Verification development for the Deploy-Ninja build server
(`build-server/src/server.js` and its utility modules), shallowly embedded
in Lean. Pure decision logic is translated to Lean functions; the
event-driven parts (subprocess lifecycle, promise combinators, shutdown
triggers) are modelled as explicit state machines over event lists, with
JavaScript's single-threaded run-to-completion semantics made explicit.
-/

namespace DeployNinja

/-! ## Error model (`utils/errorHandler.js`: `BuildError`, `ErrorHandler.BUILD_ERROR_CODES`) -/

/-- The error codes of `ErrorHandler.BUILD_ERROR_CODES`. -/
inductive BuildErrorCode where
  | INITIALIZATION_FAILED
  | BUILD_FAILED
  | UPLOAD_FAILED
  | KAFKA_ERROR
  | S3_ERROR
  | CLICKHOUSE_ERROR
  | VALIDATION_ERROR
  | UNKNOWN_ERROR
deriving DecidableEq, Repr

/-- The `details` object attached to a `BuildError`. The JavaScript code
attaches ad-hoc fields; we give each field that any call site sets,
absent fields keeping their default. -/
structure ErrorDetails where
  missingVars : List String := []
  exitCode : Option (Option Int) := none
  buildErrors : Option String := none
  timeout : Bool := false
  originalError : Option String := none
deriving DecidableEq, Repr

/-- `BuildError` from `utils/errorHandler.js`: message, code, details. -/
structure BuildError where
  message : String
  code : BuildErrorCode
  details : ErrorDetails := {}
deriving DecidableEq, Repr

/-! ## Environment validation
(`ErrorHandler.validateEnvironment`, called from `BuildServer.initialize`) -/

/-- An environment: variable name to optional value. `none` models an unset
variable (JavaScript `undefined`). -/
def EnvMap : Type := String → Option String

/-- JavaScript truthiness test used by `validateEnvironment`:
`!process.env[varName]` is true when the variable is unset or empty. -/
def isFalsyEnv (env : EnvMap) (v : String) : Bool :=
  match env v with
  | none => true
  | some s => s = ""

/-- The required variables `BuildServer.initialize` passes to
`ErrorHandler.validateEnvironment` (server.js lines 22-28). -/
def requiredEnvVars : List String :=
  ["PROJECT_URI", "DEPLOYMENT_ID", "PROJECT_INSTALL_COMMAND",
   "PROJECT_BUILD_COMMAND", "PROJECT_ROOT_DIR"]

/-- `ErrorHandler.validateEnvironment(requiredVars)`: filters the missing
(falsy) variables and throws one `BuildError` listing all of them,
joined with a comma, if any are missing. -/
def validateEnvironment (env : EnvMap) (requiredVars : List String) :
    Except BuildError Unit :=
  let missingVars := requiredVars.filter (isFalsyEnv env)
  if missingVars.isEmpty then
    .ok ()
  else
    .error
      { message := "Missing required environment variables: " ++
          String.intercalate ", " missingVars
        code := .VALIDATION_ERROR
        details := { missingVars := missingVars } }

/-- Claim C2: for every subset of absent required configuration fields,
`initialize()`'s validation fails with a `ValidationError` whose message
lists every missing field (joined with ", "), not merely the first, and
whose details carry exactly the missing list; with nothing missing it
succeeds. -/
theorem validateEnvironment_lists_all_missing (env : EnvMap) :
    (requiredEnvVars.filter (isFalsyEnv env) = [] →
      validateEnvironment env requiredEnvVars = .ok ()) ∧
    (requiredEnvVars.filter (isFalsyEnv env) ≠ [] →
      validateEnvironment env requiredEnvVars = .error
        { message := "Missing required environment variables: " ++
            String.intercalate ", " (requiredEnvVars.filter (isFalsyEnv env))
          code := .VALIDATION_ERROR
          details :=
            { missingVars := requiredEnvVars.filter (isFalsyEnv env) } }) := by
  constructor
  · intro h
    simp [validateEnvironment, h]
  · intro h
    simp only [validateEnvironment]
    rw [if_neg]
    simpa [List.isEmpty_iff] using h

/-- A concrete environment with two required variables absent
(`PROJECT_URI` unset, `PROJECT_ROOT_DIR` empty) and the rest set. -/
def envTwoMissing : EnvMap := fun v =>
  if v = "DEPLOYMENT_ID" ∨ v = "PROJECT_INSTALL_COMMAND" ∨
      v = "PROJECT_BUILD_COMMAND" then some "x"
  else if v = "PROJECT_ROOT_DIR" then some ""
  else none

/-- Witness for C2: on `envTwoMissing` both missing fields appear in the
error, not merely the first. -/
theorem validateEnvironment_lists_all_missing_witness :
    requiredEnvVars.filter (isFalsyEnv envTwoMissing) ≠ [] ∧
    validateEnvironment envTwoMissing requiredEnvVars = .error
      { message :=
          "Missing required environment variables: PROJECT_URI, PROJECT_ROOT_DIR"
        code := .VALIDATION_ERROR
        details := { missingVars := ["PROJECT_URI", "PROJECT_ROOT_DIR"] } } := by
  have h : requiredEnvVars.filter (isFalsyEnv envTwoMissing) =
      ["PROJECT_URI", "PROJECT_ROOT_DIR"] := by decide
  refine ⟨by decide, ?_⟩
  have := (validateEnvironment_lists_all_missing envTwoMissing).2 (by decide)
  rw [this, h]
  rfl

/-! ## Subprocess Runner (`BuildServer.executeBuildProcess`, server.js 104-177)

The promise returned by `executeBuildProcess` is settled by event handlers:
`stdout`/`stderr` data chunks accumulate, the `close` handler resolves on
exit code 0 and rejects with `BuildFailed` otherwise, the `error` handler
rejects on spawn failure, and a 30-minute timer kills the process and
rejects with `timeout: true`. A second `close` handler clears the timer.
We model the handlers as a step function over an event list; a promise
keeps only its first settlement, as in JavaScript. -/

/-- Events delivered to the handlers of `executeBuildProcess`. A `close`
carries the exit code (`none` models JavaScript `null`, the code when the
process was killed by a signal). `timerFire` is the 30-minute timeout
callback running; it can only occur while the timer is armed. -/
inductive ProcEvent where
  | stdoutData (chunk : String)
  | stderrData (chunk : String)
  | close (code : Option Int)
  | spawnError (msg : String)
  | timerFire
deriving DecidableEq, Repr

/-- State of one `executeBuildProcess` call: the accumulated output and
stderr buffers, the promise's settlement (`none` while pending; a promise
keeps only its first settlement), whether the 30-minute timer is still
armed, and whether `buildProcess.kill()` has been called. -/
structure ProcState where
  buildOutput : String := ""
  buildErrors : String := ""
  settled : Option (Except BuildError Unit) := none
  timerArmed : Bool := true
  killed : Bool := false
deriving Repr

/-- Settle a promise: the first settlement wins, later ones are no-ops. -/
def settleFirst (s : ProcState) (r : Except BuildError Unit) : ProcState :=
  match s.settled with
  | none => { s with settled := some r }
  | some _ => s

/-- JavaScript `String(code)` for the nullable exit code in the template
literal of the rejection message. -/
def exitCodeText : Option Int → String
  | none => "null"
  | some n => toString n

/-- The `close` handler's decision (server.js 145-155): resolve on exit
code 0, otherwise reject with `BuildFailed` carrying the exit code and the
accumulated stderr text. -/
def closeOutcome (code : Option Int) (buildErrors : String) :
    Except BuildError Unit :=
  if code = some 0 then .ok ()
  else .error
    { message := "Build process exited with code " ++ exitCodeText code ++
        "\n" ++ buildErrors
      code := .BUILD_FAILED
      details := { exitCode := some code, buildErrors := some buildErrors } }

/-- The rejection built by the timeout callback (server.js 166-173). -/
def timeoutError : BuildError :=
  { message := "Build process timed out"
    code := .BUILD_FAILED
    details := { timeout := true } }

/-- One event handled: data accumulates; `close` settles via `closeOutcome`
and clears the timer (server.js 175); `error` settles with a spawn-failure
rejection; the timer callback kills the process and settles with
`timeoutError` (it only runs while armed, and disarms itself). -/
def procStep (s : ProcState) : ProcEvent → ProcState
  | .stdoutData c => { s with buildOutput := s.buildOutput ++ c }
  | .stderrData c => { s with buildErrors := s.buildErrors ++ c }
  | .close code =>
      let s' := settleFirst s (closeOutcome code s.buildErrors)
      { s' with timerArmed := false }
  | .spawnError msg =>
      settleFirst s (.error
        { message := "Failed to start build process: " ++ msg
          code := .BUILD_FAILED
          details := { originalError := some msg } })
  | .timerFire =>
      if s.timerArmed then
        let s' := settleFirst { s with killed := true } (.error timeoutError)
        { s' with timerArmed := false }
      else s

/-- Run `executeBuildProcess`'s handlers over an event list. -/
def runProc (events : List ProcEvent) : ProcState :=
  events.foldl procStep {}

/-- A stream chunk delivered before the process exits. -/
inductive Chunk where
  | out (text : String)
  | err (text : String)
deriving DecidableEq, Repr

/-- The event a chunk raises. -/
def Chunk.event : Chunk → ProcEvent
  | .out t => .stdoutData t
  | .err t => .stderrData t

/-- The full accumulated stderr text of a chunk sequence, in delivery
order. -/
def stderrText (cs : List Chunk) : String :=
  cs.foldl (fun a c => match c with | .out _ => a | .err t => a ++ t) ""

/-- After only data chunks, the promise is pending, the timer armed, the
process unkilled, and the stderr buffer holds the accumulated stderr. -/
theorem runProc_chunks (cs : List Chunk) :
    (runProc (cs.map Chunk.event)).settled = none ∧
    (runProc (cs.map Chunk.event)).timerArmed = true ∧
    (runProc (cs.map Chunk.event)).killed = false ∧
    (runProc (cs.map Chunk.event)).buildErrors = stderrText cs := by
  suffices h : ∀ (s : ProcState) (cs : List Chunk),
      ((cs.map Chunk.event).foldl procStep s).settled = s.settled ∧
      ((cs.map Chunk.event).foldl procStep s).timerArmed = s.timerArmed ∧
      ((cs.map Chunk.event).foldl procStep s).killed = s.killed ∧
      ((cs.map Chunk.event).foldl procStep s).buildErrors =
        cs.foldl (fun a c => match c with | .out _ => a | .err t => a ++ t)
          s.buildErrors by
    exact h {} cs
  intro s cs
  induction cs generalizing s with
  | nil => exact ⟨rfl, rfl, rfl, rfl⟩
  | cons c cs ih =>
    cases c with
    | out t => simpa [Chunk.event, procStep] using ih _
    | err t => simpa [Chunk.event, procStep] using ih _

/-- Claim C3: for a build whose process streams any chunks and then exits
with code `c`, the promise resolves successfully iff `c = 0`; for every
non-zero (or null) exit code it rejects with `BuildFailed` carrying that
exit code and the full accumulated stderr text. -/
theorem executeBuildProcess_exit_code (cs : List Chunk) (c : Option Int) :
    ((runProc (cs.map Chunk.event ++ [.close c])).settled = some (.ok ()) ↔
      c = some 0) ∧
    (c ≠ some 0 →
      (runProc (cs.map Chunk.event ++ [.close c])).settled = some (.error
        { message := "Build process exited with code " ++ exitCodeText c ++
            "\n" ++ stderrText cs
          code := .BUILD_FAILED
          details := { exitCode := some c
                       buildErrors := some (stderrText cs) } })) := by
  obtain ⟨h1, h2, h3, h4⟩ := runProc_chunks cs
  have hrun : runProc (cs.map Chunk.event ++ [.close c]) =
      procStep (runProc (cs.map Chunk.event)) (.close c) := by
    simp [runProc, List.foldl_append]
  constructor
  · constructor
    · intro h
      by_contra hc
      rw [hrun] at h
      simp [procStep, settleFirst, h1, closeOutcome, hc] at h
    · intro h
      rw [hrun]
      simp [procStep, settleFirst, h1, closeOutcome, h]
  · intro hc
    rw [hrun]
    simp [procStep, settleFirst, h1, closeOutcome, hc, h4]

/-- Witness for C3: a concrete run with stderr chunks and exit code 2
rejects with the code and the accumulated stderr; with exit code 0 the
same run resolves. -/
theorem executeBuildProcess_exit_code_witness :
    ((runProc ([Chunk.err "oops ", Chunk.out "hi", Chunk.err "bad"].map
        Chunk.event ++ [.close (some 2)])).settled = some (.error
      { message := "Build process exited with code 2\noops bad"
        code := .BUILD_FAILED
        details := { exitCode := some (some 2)
                     buildErrors := some "oops bad" } })) ∧
    ((runProc ([Chunk.err "oops ", Chunk.out "hi", Chunk.err "bad"].map
        Chunk.event ++ [.close (some 0)])).settled = some (.ok ())) := by
  constructor
  · have h := (executeBuildProcess_exit_code
      [Chunk.err "oops ", Chunk.out "hi", Chunk.err "bad"] (some 2)).2
      (by decide)
    rw [h]
    rfl
  · exact (executeBuildProcess_exit_code
      [Chunk.err "oops ", Chunk.out "hi", Chunk.err "bad"] (some 0)).1.2 rfl

/-- Claim C4: if the timer fires after only stream chunks (the process has
not exited within 30 minutes), the process is killed and the promise
rejects with `BuildFailed` whose details carry `timeout := true`; and on
every exit path — any `close` event, whatever the prior state — the
timeout timer is cleared. -/
theorem executeBuildProcess_timeout (cs : List Chunk) :
    ((runProc (cs.map Chunk.event ++ [.timerFire])).killed = true ∧
      (runProc (cs.map Chunk.event ++ [.timerFire])).settled =
        some (.error timeoutError)) ∧
    (∀ (s : ProcState) (c : Option Int),
      (procStep s (.close c)).timerArmed = false) := by
  obtain ⟨h1, h2, h3, h4⟩ := runProc_chunks cs
  refine ⟨?_, fun s c => rfl⟩
  have hrun : runProc (cs.map Chunk.event ++ [.timerFire]) =
      procStep (runProc (cs.map Chunk.event)) .timerFire := by
    simp [runProc, List.foldl_append]
  rw [hrun]
  constructor
  · simp [procStep, h2, settleFirst, h1]
  · simp [procStep, h2, settleFirst, h1]

/-! ## Artifact upload (`BuildServer.uploadArtifacts`, server.js 179-219,
and `S3Service.uploadFile`, s3Service.js 19-37) -/

/-- One entry of the recursive directory listing
`fs.readdirSync(distDir, { recursive: true })`, together with whether
`fs.lstatSync` reports it as a directory. `relPath` is the path relative
to the `dist` root. -/
structure DirEntry where
  relPath : String
  isDir : Bool
deriving DecidableEq, Repr

/-- `path.basename`: the last `/`-separated component of the path (the
characters after the last separator). -/
def basename (p : String) : String :=
  String.mk ((p.data.reverse.takeWhile (fun c => c ≠ '/')).reverse)

/-- The `PutObjectCommand` built by `S3Service.uploadFile`: bucket key and
content type for one file. -/
structure UploadCall where
  filePath : String
  key : String
  contentType : String
deriving DecidableEq, Repr

/-- `S3Service.uploadFile(filePath, projectUri)` (s3Service.js 19-28):
destination key `__outputs/<projectUri>/<basename>`, content type
`mime.lookup(filePath) || 'application/octet-stream'`. The `mime-types`
database is an external collaborator, abstracted as `ml` (returning
`none` where `mime.lookup` returns `false`). -/
def putObjectCommand (ml : String → Option String) (projectUri filePath : String) :
    UploadCall :=
  { filePath := filePath
    key := "__outputs/" ++ projectUri ++ "/" ++ basename filePath
    contentType := (ml filePath).getD "application/octet-stream" }

/-- The upload calls issued by the `for` loop of `uploadArtifacts`
(server.js 195-216): directory entries are skipped with `continue`, every
other entry gets one `uploadFile` call. -/
def uploadArtifactsCalls (ml : String → Option String) (uri : String) :
    List DirEntry → List UploadCall
  | [] => []
  | e :: rest =>
    if e.isDir then uploadArtifactsCalls ml uri rest
    else putObjectCommand ml uri e.relPath :: uploadArtifactsCalls ml uri rest

/-- Claim C7: exactly the non-directory entries of the artifact tree are
uploaded — every issued call comes from a non-directory entry (so
directories are never passed to upload), every non-directory entry is
uploaded, and each call carries destination key
`__outputs/<projectURI>/<fileName>` and the extension-derived content type
defaulting to `application/octet-stream`. -/
theorem uploadArtifacts_uploads_exactly_files
    (ml : String → Option String) (uri : String) (entries : List DirEntry) :
    (∀ call ∈ uploadArtifactsCalls ml uri entries,
      ∃ e ∈ entries, e.isDir = false ∧ call = putObjectCommand ml uri e.relPath) ∧
    (∀ e ∈ entries, e.isDir = false →
      putObjectCommand ml uri e.relPath ∈ uploadArtifactsCalls ml uri entries) ∧
    (∀ call ∈ uploadArtifactsCalls ml uri entries,
      call.key = "__outputs/" ++ uri ++ "/" ++ basename call.filePath ∧
      call.contentType = (ml call.filePath).getD "application/octet-stream") := by
  induction entries with
  | nil => exact ⟨by simp [uploadArtifactsCalls], by simp, by simp [uploadArtifactsCalls]⟩
  | cons e rest ih =>
    obtain ⟨ih1, ih2, ih3⟩ := ih
    by_cases hd : e.isDir
    · refine ⟨?_, ?_, ?_⟩
      · intro call hc
        rw [uploadArtifactsCalls, if_pos hd] at hc
        obtain ⟨e', he', hnd, hcall⟩ := ih1 call hc
        exact ⟨e', List.mem_cons_of_mem _ he', hnd, hcall⟩
      · intro e' he' hnd
        rw [uploadArtifactsCalls, if_pos hd]
        rcases List.mem_cons.mp he' with h | h
        · subst h; simp [hd] at hnd
        · exact ih2 e' h hnd
      · intro call hc
        rw [uploadArtifactsCalls, if_pos hd] at hc
        exact ih3 call hc
    · refine ⟨?_, ?_, ?_⟩
      · intro call hc
        rw [uploadArtifactsCalls, if_neg hd] at hc
        rcases List.mem_cons.mp hc with h | h
        · exact ⟨e, List.mem_cons_self _ _, by simpa using hd, h⟩
        · obtain ⟨e', he', hnd, hcall⟩ := ih1 call h
          exact ⟨e', List.mem_cons_of_mem _ he', hnd, hcall⟩
      · intro e' he' hnd
        rw [uploadArtifactsCalls, if_neg hd]
        rcases List.mem_cons.mp he' with h | h
        · subst h; exact List.mem_cons_self _ _
        · exact List.mem_cons_of_mem _ (ih2 e' h hnd)
      · intro call hc
        rw [uploadArtifactsCalls, if_neg hd] at hc
        rcases List.mem_cons.mp hc with h | h
        · subst h; exact ⟨rfl, rfl⟩
        · exact ih3 call h

/-- A sample of the external `mime-types` lookup for witnesses: derives
the content type from the characters after the last dot. -/
def mimeSample : String → Option String := fun p =>
  match (p.data.reverse.takeWhile (fun c => c ≠ '.')).reverse with
  | ['j', 's'] => some "application/javascript"
  | ['c', 's', 's'] => some "text/css"
  | _ => none

/-- Witness for C7: a tree holding files `a.js`, `b.css` and a directory
`assets` issues exactly the two expected calls, with the directory never
passed to upload. -/
theorem uploadArtifacts_uploads_exactly_files_witness :
    putObjectCommand mimeSample "uri" "a.js" ∈
      uploadArtifactsCalls mimeSample "uri"
        [⟨"a.js", false⟩, ⟨"assets", true⟩, ⟨"b.css", false⟩] ∧
    putObjectCommand mimeSample "uri" "b.css" ∈
      uploadArtifactsCalls mimeSample "uri"
        [⟨"a.js", false⟩, ⟨"assets", true⟩, ⟨"b.css", false⟩] ∧
    uploadArtifactsCalls mimeSample "uri"
        [⟨"a.js", false⟩, ⟨"assets", true⟩, ⟨"b.css", false⟩] =
      [⟨"a.js", "__outputs/uri/a.js", "application/javascript"⟩,
       ⟨"b.css", "__outputs/uri/b.css", "text/css"⟩] := by
  refine ⟨?_, ?_, by decide⟩
  · exact (uploadArtifacts_uploads_exactly_files mimeSample "uri"
      [⟨"a.js", false⟩, ⟨"assets", true⟩, ⟨"b.css", false⟩]).2.1
      ⟨"a.js", false⟩ (List.mem_cons_self _ _) rfl
  · exact (uploadArtifacts_uploads_exactly_files mimeSample "uri"
      [⟨"a.js", false⟩, ⟨"assets", true⟩, ⟨"b.css", false⟩]).2.1
      ⟨"b.css", false⟩ (by decide) rfl

/-! ## Upload progress counting (server.js 188-216)

`totalFiles` is computed once, before the loop, as the number of
non-directory entries. Each upload task, after its transfer resolves,
increments `uploadedCount` and publishes the progress line. JavaScript's
run-to-completion semantics make the increment-and-read atomic, so the
published counts are exactly `1..N` in completion order. -/

/-- `totalFiles` (server.js 191-193): non-directory entries of the
listing, counted once up front. -/
def totalFilesOf (entries : List DirEntry) : Nat :=
  (entries.filter fun e => !e.isDir).length

/-- One published progress line:
`Upload progress: <uploadedCount>/<totalFiles> files`. -/
structure ProgressEvent where
  count : Nat
  total : Nat
deriving DecidableEq, Repr

/-- The template literal of server.js 203-205. -/
def renderProgress (ev : ProgressEvent) : String :=
  "Upload progress: " ++ toString ev.count ++ "/" ++ toString ev.total ++ " files"

/-- Run the per-completion handlers in completion order from counter value
`c`: each handler increments the shared counter and publishes a progress
line with the new value (JavaScript's run-to-completion semantics make
the increment and the template-literal read one atomic step). -/
def progressLogsFrom (total c : Nat) : List String → List String
  | [] => []
  | _ :: rest => renderProgress ⟨c + 1, total⟩ :: progressLogsFrom total (c + 1) rest

/-- All progress lines of one `uploadArtifacts` run, counter starting at
`uploadedCount = 0`. -/
def uploadProgressLogs (total : Nat) (completions : List String) : List String :=
  progressLogsFrom total 0 completions

theorem progressLogsFrom_eq (total : Nat) (order : List String) (c : Nat) :
    progressLogsFrom total c order =
      (List.range order.length).map
        (fun i => renderProgress ⟨c + i + 1, total⟩) := by
  induction order generalizing c with
  | nil => simp [progressLogsFrom]
  | cons o os ih =>
    rw [progressLogsFrom, ih (c + 1), List.length_cons, List.range_succ_eq_map,
      List.map_cons, List.map_map]
    congr 1
    apply List.map_congr_left
    intro i _
    have harg : c + 1 + i + 1 = c + (i + 1) + 1 := by omega
    simp [Function.comp_apply, Nat.succ_eq_add_one, harg]

/-- Claim C9: with `totalFiles` computed once up front from the listing
(directories excluded), a run of N successful uploads completing in any
order publishes exactly the lines `Upload progress: c/N files` for
`c = 1..N` in order: no published count exceeds N and the final line
reads `N/N`. -/
theorem uploadArtifacts_progress_bounded (entries : List DirEntry)
    (order : List String) (h : order.length = totalFilesOf entries) :
    uploadProgressLogs (totalFilesOf entries) order =
      (List.range (totalFilesOf entries)).map
        (fun i => renderProgress ⟨i + 1, totalFilesOf entries⟩) ∧
    (∀ ev ∈ uploadProgressLogs (totalFilesOf entries) order,
      ∃ c, 1 ≤ c ∧ c ≤ totalFilesOf entries ∧
        ev = renderProgress ⟨c, totalFilesOf entries⟩) ∧
    (order ≠ [] →
      (uploadProgressLogs (totalFilesOf entries) order).getLast? =
        some (renderProgress ⟨totalFilesOf entries, totalFilesOf entries⟩)) := by
  have hmain : uploadProgressLogs (totalFilesOf entries) order =
      (List.range (totalFilesOf entries)).map
        (fun i => renderProgress ⟨i + 1, totalFilesOf entries⟩) := by
    rw [uploadProgressLogs, progressLogsFrom_eq, h]
    simp
  refine ⟨hmain, ?_, ?_⟩
  · intro ev hev
    rw [hmain] at hev
    obtain ⟨i, hi, hrend⟩ := List.mem_map.mp hev
    exact ⟨i + 1, by omega, by have := List.mem_range.mp hi; omega, hrend.symm⟩
  · intro hne
    rw [hmain]
    have htot : totalFilesOf entries ≠ 0 := by
      rw [← h]
      simpa using hne
    obtain ⟨m, hm⟩ := Nat.exists_eq_succ_of_ne_zero htot
    rw [hm, List.range_succ, List.map_append]
    simp

/-- Witness for C9: three files (`a.js`, `b.css` and a skipped directory
excluded from the count) completing out of order publish `1/2` then `2/2`,
ending at `2/2`. -/
theorem uploadArtifacts_progress_bounded_witness :
    uploadProgressLogs
        (totalFilesOf [⟨"a.js", false⟩, ⟨"assets", true⟩, ⟨"b.css", false⟩])
        ["b.css", "a.js"] =
      ["Upload progress: 1/2 files", "Upload progress: 2/2 files"] ∧
    (uploadProgressLogs
        (totalFilesOf [⟨"a.js", false⟩, ⟨"assets", true⟩, ⟨"b.css", false⟩])
        ["b.css", "a.js"]).getLast? = some "Upload progress: 2/2 files" := by
  have h := uploadArtifacts_progress_bounded
    [⟨"a.js", false⟩, ⟨"assets", true⟩, ⟨"b.css", false⟩]
    ["b.css", "a.js"] (by decide)
  refine ⟨?_, ?_⟩
  · rw [h.1]; rfl
  · have := h.2.2 (by decide)
    rw [this]; rfl

/-! ## Upload failure aggregation (server.js 189-218)

Each upload task catches its own storage failure and re-throws
`BuildError('Failed to upload <file>', UPLOAD_FAILED)`. The coordinator
awaits `Promise.all(uploadPromises)` (line 218): `Promise.all` resolves
once every promise has fulfilled, but rejects as soon as the first task
rejects, with that task's error; the remaining in-flight tasks are not
cancelled and keep running to their own settlement. -/

/-- Equality of storage-upload outcomes is decidable. -/
instance : DecidableEq (Except String Unit) := fun a b =>
  match a, b with
  | .ok (), .ok () => isTrue rfl
  | .error x, .error y =>
      if h : x = y then isTrue (by rw [h]) else
        isFalse (fun hh => h (by cases hh; rfl))
  | .ok _, .error _ => isFalse (fun h => Except.noConfusion h)
  | .error _, .ok _ => isFalse (fun h => Except.noConfusion h)

/-- One upload task: the file's listing name, the (abstract) time at which
its transfer settles, and the storage collaborator's outcome (`error`
carries the rejection's message). -/
structure UploadAttempt where
  file : String
  settleTime : Nat
  result : Except String Unit
deriving DecidableEq, Repr

/-- The `BuildError` thrown by a task's `catch` block (server.js 206-212)
when its upload rejects: it names the task's file. -/
def uploadTaskError (t : UploadAttempt) : BuildError :=
  { message := "Failed to upload " ++ t.file
    code := .UPLOAD_FAILED
    details := { originalError := match t.result with
                  | .error m => some m
                  | .ok _ => none } }

/-- Whether a task's upload rejected. -/
def isRejected (t : UploadAttempt) : Bool :=
  match t.result with
  | .ok _ => false
  | .error _ => true

/-- The first task, in settlement time, whose upload rejects (ties broken
towards the earlier task in the list). `none` when every upload fulfils. -/
def firstRejection : List UploadAttempt → Option UploadAttempt
  | [] => none
  | t :: ts =>
    match firstRejection ts with
    | none => if isRejected t then some t else none
    | some u =>
        if isRejected t ∧ t.settleTime ≤ u.settleTime then some t else some u

theorem isRejected_iff (t : UploadAttempt) :
    isRejected t = true ↔ ∃ m, t.result = .error m := by
  rcases hres : t.result with _ | m <;> simp [isRejected, hres]

/-- The time at which the last task settles. -/
def maxSettle : List UploadAttempt → Nat
  | [] => 0
  | t :: ts => max t.settleTime (maxSettle ts)

/-- `await Promise.all(uploadPromises)`: fulfils at the last settlement
when every task fulfils; rejects at the first rejection's settle time,
with that task's `UPLOAD_FAILED` error, otherwise. -/
def promiseAllUploads (ts : List UploadAttempt) : Nat × Except BuildError Unit :=
  match firstRejection ts with
  | some t => (t.settleTime, .error (uploadTaskError t))
  | none => (maxSettle ts, .ok ())

theorem firstRejection_spec (ts : List UploadAttempt) :
    (firstRejection ts = none →
      ∀ t ∈ ts, ∀ m, t.result ≠ .error m) ∧
    (∀ f, firstRejection ts = some f →
      f ∈ ts ∧ (∃ m, f.result = .error m) ∧
      ∀ t ∈ ts, (∃ m, t.result = .error m) → f.settleTime ≤ t.settleTime) := by
  induction ts with
  | nil => exact ⟨by simp, by simp [firstRejection]⟩
  | cons t ts ih =>
    obtain ⟨ihn, ihs⟩ := ih
    rcases hr : firstRejection ts with _ | u
    · constructor
      · intro hnone t' ht' m hm
        simp only [firstRejection, hr] at hnone
        rcases List.mem_cons.mp ht' with h | h
        · subst h
          rw [if_pos ((isRejected_iff t').mpr ⟨m, hm⟩)] at hnone
          exact Option.noConfusion hnone
        · exact ihn hr t' h m hm
      · intro f hf
        simp only [firstRejection, hr] at hf
        by_cases hrej : isRejected t
        · rw [if_pos hrej] at hf
          obtain rfl := Option.some.inj hf
          refine ⟨List.mem_cons_self _ _, (isRejected_iff t).mp hrej, ?_⟩
          intro t' ht' ht'err
          rcases List.mem_cons.mp ht' with h | h
          · subst h; exact le_refl _
          · obtain ⟨m', hm'⟩ := ht'err
            exact absurd hm' (ihn hr t' h m')
        · rw [if_neg hrej] at hf
          exact absurd hf (by simp)
    · obtain ⟨humem, huerr, humin⟩ := ihs u hr
      constructor
      · intro hnone
        simp only [firstRejection, hr] at hnone
        split at hnone <;> exact Option.noConfusion hnone
      · intro f hf
        simp only [firstRejection, hr] at hf
        by_cases hcond : isRejected t ∧ t.settleTime ≤ u.settleTime
        · rw [if_pos hcond] at hf
          obtain rfl := Option.some.inj hf
          obtain ⟨hrej, htime⟩ := hcond
          refine ⟨List.mem_cons_self _ _, (isRejected_iff t).mp hrej, ?_⟩
          intro t' ht' ht'err
          rcases List.mem_cons.mp ht' with h | h
          · subst h; exact le_refl _
          · exact le_trans htime (humin t' h ht'err)
        · rw [if_neg hcond] at hf
          obtain rfl := Option.some.inj hf
          refine ⟨List.mem_cons_of_mem _ humem, huerr, ?_⟩
          intro t' ht' ht'err
          rcases List.mem_cons.mp ht' with h | h
          · subst h
            have hrej : isRejected t' = true := (isRejected_iff t').mpr ht'err
            have hlt : ¬ t'.settleTime ≤ u.settleTime :=
              fun hle => hcond ⟨hrej, hle⟩
            omega
          · exact humin t' h ht'err

/-- Claim C1, amended: when at least one upload rejects, the coordinator
fails with `UploadFailed` naming the first (earliest-settling) rejected
file, at that first rejection's settle time — it does not wait for the
remaining in-flight uploads to settle (nor does it cancel them; each
task's own settlement is unaffected). -/
theorem uploadArtifacts_fails_at_first_rejection (ts : List UploadAttempt)
    (h : ∃ t ∈ ts, ∃ m, t.result = .error m) :
    ∃ f, firstRejection ts = some f ∧ f ∈ ts ∧
      (∃ m, f.result = .error m) ∧
      (∀ t ∈ ts, (∃ m, t.result = .error m) → f.settleTime ≤ t.settleTime) ∧
      promiseAllUploads ts = (f.settleTime, .error (uploadTaskError f)) := by
  have hspec := firstRejection_spec ts
  rcases hr : firstRejection ts with _ | f
  · obtain ⟨t, ht, m, hm⟩ := h
    exact absurd hm (hspec.1 hr t ht m)
  · obtain ⟨hmem, herr, hmin⟩ := hspec.2 f hr
    refine ⟨f, rfl, hmem, herr, hmin, ?_⟩
    simp [promiseAllUploads, hr]

/-- The concrete run refuting claim C1 as stated: `a.js` fulfils at time
5, `b.css` rejects at time 1. -/
def c1Tasks : List UploadAttempt :=
  [⟨"a.js", 5, .ok ()⟩, ⟨"b.css", 1, .error "AccessDenied"⟩]

/-- Counterexample to claim C1 as stated: on `c1Tasks` the coordinator's
combined promise rejects at time 1 — naming `b.css` — while the sibling
upload `a.js` is still in flight (it settles at time 5), so the
coordinator does not await all uploads until they have settled before
failing. -/
theorem uploadArtifacts_not_awaiting_all_counterexample :
    (promiseAllUploads c1Tasks).1 = 1 ∧
    maxSettle c1Tasks = 5 ∧
    (promiseAllUploads c1Tasks).1 < maxSettle c1Tasks ∧
    (promiseAllUploads c1Tasks).2 = .error
      { message := "Failed to upload b.css"
        code := .UPLOAD_FAILED
        details := { originalError := some "AccessDenied" } } := by
  refine ⟨by decide, by decide, by decide, ?_⟩
  rfl

/-- Witness for the amended C1 on the same concrete run: the coordinator
fails with `UploadFailed` naming `b.css`, the earliest-settling rejected
file, at its settle time 1. -/
theorem uploadArtifacts_fails_at_first_rejection_witness :
    ∃ f, firstRejection c1Tasks = some f ∧ f ∈ c1Tasks ∧
      (∃ m, f.result = .error m) ∧
      (∀ t ∈ c1Tasks, (∃ m, t.result = .error m) →
        f.settleTime ≤ t.settleTime) ∧
      promiseAllUploads c1Tasks = (f.settleTime, .error (uploadTaskError f)) :=
  uploadArtifacts_fails_at_first_rejection c1Tasks
    ⟨⟨"b.css", 1, .error "AccessDenied"⟩, by decide, "AccessDenied", rfl⟩

/-! ## Analytical database (`ClickHouseService`, clickhouseService.js)

`insertBuildLog` and `recordBuildMetrics` both begin with a connection
guard that throws `BuildError(CLICKHOUSE_ERROR)` when `isConnected` is
false; only the inner `client.insert` failure is caught, logged and
swallowed. The underlying client's behaviour is abstracted as a boolean
`insertFails`. -/

/-- The error thrown by the connection guards (clickhouseService.js 78-83
and 104-109). -/
def chNotConnectedError : BuildError :=
  { message := "ClickHouse client not connected", code := .CLICKHOUSE_ERROR }

/-- `ClickHouseService.insertBuildLog(deploymentId, log, level)`: throws
when not connected; otherwise attempts the insert, swallowing (logging
only) an insert failure. -/
def chInsertBuildLog (isConnected : Bool) (_deploymentId _log _level : String)
    (_insertFails : Bool) : Except BuildError Unit :=
  if !isConnected then .error chNotConnectedError
  else .ok ()

/-- The row `recordBuildMetrics` inserts into `build_metrics`. Times are
milliseconds since the epoch; `durationSeconds` is
`Math.floor((endTime - startTime) / 1000)`. -/
structure MetricsRow where
  deploymentId : String
  projectUri : String
  startMs : Int
  endMs : Int
  durationSeconds : Int
  status : String
  errorMessage : String
deriving DecidableEq, Repr

/-- `ClickHouseService.recordBuildMetrics(...)`: throws when not
connected; otherwise attempts the insert of the metrics row, swallowing
(logging only) an insert failure. Returns the attempted row. -/
def chRecordBuildMetrics (isConnected : Bool) (deploymentId projectUri : String)
    (startMs endMs : Int) (status errorMessage : String)
    (_insertFails : Bool) : Except BuildError MetricsRow :=
  if !isConnected then .error chNotConnectedError
  else .ok
    { deploymentId := deploymentId
      projectUri := projectUri
      startMs := startMs
      endMs := endMs
      durationSeconds := (endMs - startMs).fdiv 1000
      status := status
      errorMessage := errorMessage }

/-- Counterexample to claim C8 as stated: with the client not connected,
`insertBuildLog` and `recordBuildMetrics` do raise
`BuildError(CLICKHOUSE_ERROR, 'ClickHouse client not connected')` to
their caller — they are not best-effort in every client state. -/
theorem clickhouse_throws_when_disconnected_counterexample :
    chInsertBuildLog false "dep-1" "a log line" "INFO" false =
      .error chNotConnectedError ∧
    chRecordBuildMetrics false "dep-1" "proj" 0 5000 "SUCCESS" "" false =
      .error chNotConnectedError := ⟨rfl, rfl⟩

/-- Claim C8, amended: when the client is connected, `insertBuildLog` and
`recordBuildMetrics` never raise — failures of the underlying insert are
logged and swallowed, whether or not the insert fails; when the client is
not connected, both throw `BuildError(CLICKHOUSE_ERROR)`. -/
theorem clickhouse_best_effort_when_connected
    (deploymentId log level projectUri status errorMessage : String)
    (startMs endMs : Int) (insertFails : Bool) :
    chInsertBuildLog true deploymentId log level insertFails = .ok () ∧
    chRecordBuildMetrics true deploymentId projectUri startMs endMs
      status errorMessage insertFails =
      .ok { deploymentId := deploymentId
            projectUri := projectUri
            startMs := startMs
            endMs := endMs
            durationSeconds := (endMs - startMs).fdiv 1000
            status := status
            errorMessage := errorMessage } ∧
    chInsertBuildLog false deploymentId log level insertFails =
      .error chNotConnectedError ∧
    chRecordBuildMetrics false deploymentId projectUri startMs endMs
      status errorMessage insertFails = .error chNotConnectedError :=
  ⟨rfl, rfl, rfl, rfl⟩

/-! ## Shutdown Coordinator (`BuildServer.cleanup`, server.js 258-298;
`ErrorHandler.gracefulShutdown`, errorHandler.js; trigger registration in
`setupCleanup`, server.js 230-256)

`cleanup` is guarded by the `isExiting` latch. Its body kills the build
process if still running, records final metrics, then runs
`gracefulShutdown`, whose three steps (disconnect Kafka, disconnect
ClickHouse, remove the output directory) each carry their own
`.catch`-and-log; any error escaping the body is caught by the outer
`try`/`catch`, which only logs it. -/

/-- The failure knobs of the collaborators during one teardown and whether
the build subprocess is still alive when teardown begins. -/
structure ShutdownEnv where
  processAlive : Bool
  chConnected : Bool
  chInsertFails : Bool
  kafkaDisconnectFails : Bool
  chDisconnectFails : Bool
  rmdirFails : Bool
deriving DecidableEq, Repr

/-- Outcome of one teardown step, as its promise settles. -/
def stepResult (fails : Bool) (msg : String) : Except String Unit :=
  if fails then .error msg else .ok ()

/-- The `.catch(err => logger.error(...))` attached to each shutdown
promise: a rejection becomes a logged line, nothing propagates. -/
def catchLogged (prefixMsg : String) (r : Except String Unit) : List String :=
  match r with
  | .ok _ => []
  | .error e => [prefixMsg ++ e]

/-- What `ErrorHandler.gracefulShutdown` did: which steps were attempted,
and the error lines it logged. -/
structure GracefulResult where
  kafkaDisconnectAttempted : Bool
  chDisconnectAttempted : Bool
  rmdirAttempted : Bool
  logged : List String
deriving DecidableEq, Repr

/-- `ErrorHandler.gracefulShutdown(services, logger)` (errorHandler.js
59-97): pushes all three shutdown promises (Kafka disconnect, ClickHouse
disconnect, the output-directory cleanup closure), each with an
individual catch-and-log, then `Promise.allSettled`s them; it never
rejects. -/
def gracefulShutdown (env : ShutdownEnv) : GracefulResult :=
  { kafkaDisconnectAttempted := true
    chDisconnectAttempted := true
    rmdirAttempted := true
    logged :=
      catchLogged "Error disconnecting Kafka:"
        (stepResult env.kafkaDisconnectFails "kafka") ++
      catchLogged "Error disconnecting ClickHouse:"
        (stepResult env.chDisconnectFails "clickhouse") ++
      catchLogged "Error during cleanup:"
        (stepResult env.rmdirFails "rmdir") }

/-- The latch state of one `BuildServer` (server.js 14, 259-260). -/
structure JobState where
  isExiting : Bool
deriving DecidableEq, Repr

/-- The observable effects of one `cleanup(error)` call. `metrics` is the
row passed to `recordBuildMetrics` when the insert was attempted;
`graceful` is `none` when `gracefulShutdown` was never reached;
`caughtLog` is what the outer `catch` logged. -/
structure CleanupResult where
  ranTeardown : Bool
  killedProcess : Bool
  metrics : Option MetricsRow
  graceful : Option GracefulResult
  caughtLog : List String
deriving DecidableEq, Repr

/-- A `cleanup` call that observed the latch: no side effects. -/
def cleanupNoOp : CleanupResult :=
  { ranTeardown := false, killedProcess := false, metrics := none,
    graceful := none, caughtLog := [] }

/-- The body of `cleanup`'s `try` block (server.js 266-294), sequencing:
kill the build process if still running, record final metrics (which can
throw, ending the body), then `gracefulShutdown`. -/
def cleanupBody (env : ShutdownEnv) (deploymentId projectUri : String)
    (startMs endMs : Int) (status errorMessage : String) :
    Except BuildError (MetricsRow × GracefulResult) :=
  match chRecordBuildMetrics env.chConnected deploymentId projectUri
      startMs endMs status errorMessage env.chInsertFails with
  | .error e => .error e
  | .ok row => .ok (row, gracefulShutdown env)

/-- `BuildServer.cleanup(error = null)` (server.js 258-298): returns
without side effects when `isExiting` is already set; otherwise sets the
latch, derives `status`/`errorMessage` from the optional error argument,
runs the body, and catches any body error, logging `Cleanup failed:`. -/
def cleanup (st : JobState) (err : Option String) (env : ShutdownEnv)
    (deploymentId projectUri : String) (startMs endMs : Int) :
    JobState × CleanupResult :=
  if st.isExiting then (st, cleanupNoOp)
  else
    match cleanupBody env deploymentId projectUri startMs endMs
        (if err.isSome then "FAILED" else "SUCCESS") (err.getD "") with
    | .error e =>
        (⟨true⟩, { ranTeardown := true
                   killedProcess := env.processAlive
                   metrics := none
                   graceful := none
                   caughtLog := ["Cleanup failed: " ++ e.message] })
    | .ok (row, gs) =>
        (⟨true⟩, { ranTeardown := true
                   killedProcess := env.processAlive
                   metrics := some row
                   graceful := some gs
                   caughtLog := [] })

/-- The trigger paths registered in `setupCleanup` and the two in-band
call sites (server.js 71, 83, 231-255): each ends in one `cleanup` call,
with an error argument on the exception paths and none on normal
completion or a termination signal. -/
inductive Trigger where
  | normalCompletion
  | caughtException (msg : String)
  | sigterm
  | sigint
  | unhandledRejection (msg : String)
deriving DecidableEq, Repr

/-- The argument each trigger path passes to `cleanup` (server.js: the
SIGTERM/SIGINT handlers and the success path call `cleanup()`; the
exception and rejection paths call `cleanup(error)`). -/
def Trigger.errorArg : Trigger → Option String
  | .normalCompletion => none
  | .caughtException m => some m
  | .sigterm => none
  | .sigint => none
  | .unhandledRejection m => some m

/-- Fire a sequence of triggers against one job, counting how many of the
resulting `cleanup` calls actually ran teardown. -/
def runTriggers (env : ShutdownEnv) (deploymentId projectUri : String)
    (startMs endMs : Int) : JobState → List Trigger → JobState × Nat
  | st, [] => (st, 0)
  | st, t :: ts =>
    let step := cleanup st t.errorArg env deploymentId projectUri startMs endMs
    let rest := runTriggers env deploymentId projectUri startMs endMs step.1 ts
    (rest.1, (if step.2.ranTeardown then 1 else 0) + rest.2)

theorem cleanup_when_exiting (st : JobState) (h : st.isExiting = true)
    (err : Option String) (env : ShutdownEnv)
    (deploymentId projectUri : String) (startMs endMs : Int) :
    cleanup st err env deploymentId projectUri startMs endMs =
      (st, cleanupNoOp) := by
  rw [cleanup, if_pos h]

theorem cleanup_when_fresh (st : JobState) (h : st.isExiting = false)
    (err : Option String) (env : ShutdownEnv)
    (deploymentId projectUri : String) (startMs endMs : Int) :
    (cleanup st err env deploymentId projectUri startMs endMs).1 =
      ⟨true⟩ ∧
    (cleanup st err env deploymentId projectUri startMs endMs).2.ranTeardown =
      true := by
  rw [cleanup, if_neg (by simp [h])]
  split <;> exact ⟨rfl, rfl⟩

theorem runTriggers_when_exiting (env : ShutdownEnv)
    (deploymentId projectUri : String) (startMs endMs : Int)
    (ts : List Trigger) (st : JobState) (h : st.isExiting = true) :
    runTriggers env deploymentId projectUri startMs endMs st ts = (st, 0) := by
  induction ts with
  | nil => rfl
  | cons t ts ih =>
    rw [runTriggers, cleanup_when_exiting st h, ih]
    simp [cleanupNoOp]

/-- Claim C5: for every nonempty sequence of shutdown triggers (normal
completion, caught exception, SIGTERM/SIGINT, unhandled rejection), the
teardown side effects run exactly once: the first `cleanup` call sets the
`isExiting` latch and runs teardown, and every later call observes the
latch and returns with no side effects at all. -/
theorem cleanup_teardown_exactly_once (env : ShutdownEnv)
    (deploymentId projectUri : String) (startMs endMs : Int)
    (ts : List Trigger) (hne : ts ≠ []) :
    (runTriggers env deploymentId projectUri startMs endMs
      ⟨false⟩ ts).2 = 1 ∧
    (∀ (st : JobState), st.isExiting = true → ∀ (err : Option String),
      cleanup st err env deploymentId projectUri startMs endMs =
        (st, cleanupNoOp)) := by
  refine ⟨?_, fun st h err => cleanup_when_exiting st h err env
    deploymentId projectUri startMs endMs⟩
  cases ts with
  | nil => exact absurd rfl hne
  | cons t ts =>
    rw [runTriggers]
    have hfresh := cleanup_when_fresh ⟨false⟩ rfl t.errorArg env
      deploymentId projectUri startMs endMs
    rw [hfresh.2, if_pos rfl]
    rw [hfresh.1, runTriggers_when_exiting env deploymentId projectUri
      startMs endMs ts ⟨true⟩ rfl]
    rfl

/-- Witness for C5: a SIGTERM racing a caught exception still runs
teardown exactly once. -/
theorem cleanup_teardown_exactly_once_witness :
    (runTriggers
      ⟨true, true, false, false, false, false⟩ "dep-1" "proj" 0 5000
      ⟨false⟩ [.sigterm, .caughtException "boom"]).2 = 1 ∧
    [Trigger.sigterm, Trigger.caughtException "boom"] ≠ [] :=
  ⟨(cleanup_teardown_exactly_once ⟨true, true, false, false, false, false⟩
      "dep-1" "proj" 0 5000 [.sigterm, .caughtException "boom"]
      (by decide)).1,
   by decide⟩

/-- Counterexample to claim C6 as stated: when the analytical-database
client is not connected, the `recordBuildMetrics` step of teardown throws,
and the remaining steps are aborted — `gracefulShutdown` never runs, so
the message bus is not disconnected and the working directory is not
removed. The error is logged by the outer catch and does not propagate,
but the claim's "never aborts the remaining steps" fails. -/
theorem cleanup_metrics_failure_aborts_rest_counterexample :
    (cleanup ⟨false⟩ (some "build failed")
      ⟨true, false, false, false, false, false⟩
      "dep-1" "proj" 0 5000).2.graceful = none ∧
    (cleanup ⟨false⟩ (some "build failed")
      ⟨true, false, false, false, false, false⟩
      "dep-1" "proj" 0 5000).2.ranTeardown = true ∧
    (cleanup ⟨false⟩ (some "build failed")
      ⟨true, false, false, false, false, false⟩
      "dep-1" "proj" 0 5000).2.caughtLog =
      ["Cleanup failed: ClickHouse client not connected"] := by
  refine ⟨?_, ?_, ?_⟩ <;> rfl

/-- Claim C6, amended: no error raised during teardown propagates past
`cleanup` (its outer catch logs any body error), and a failure in any of
`gracefulShutdown`'s steps (message-bus disconnect, analytical-database
disconnect, working-directory deletion) is logged there and never stops
the other two steps from being attempted; however, a thrown
`recordBuildMetrics` (analytical-database client not connected) aborts
the remaining teardown steps, which are then never attempted. -/
theorem cleanup_teardown_isolation (st : JobState) (err : Option String)
    (env : ShutdownEnv) (deploymentId projectUri : String)
    (startMs endMs : Int) :
    ((gracefulShutdown env).kafkaDisconnectAttempted = true ∧
      (gracefulShutdown env).chDisconnectAttempted = true ∧
      (gracefulShutdown env).rmdirAttempted = true) ∧
    (∀ e, cleanupBody env deploymentId projectUri startMs endMs
        (if err.isSome then "FAILED" else "SUCCESS") (err.getD "") =
        .error e →
      st.isExiting = false →
      (cleanup st err env deploymentId projectUri startMs endMs).2 =
        { ranTeardown := true
          killedProcess := env.processAlive
          metrics := none
          graceful := none
          caughtLog := ["Cleanup failed: " ++ e.message] }) ∧
    (env.chConnected = false →
      cleanupBody env deploymentId projectUri startMs endMs
        (if err.isSome then "FAILED" else "SUCCESS") (err.getD "") =
        .error chNotConnectedError) := by
  refine ⟨⟨rfl, rfl, rfl⟩, ?_, ?_⟩
  · intro e hbody hfresh
    rw [cleanup, if_neg (by simp [hfresh])]
    rw [hbody]
  · intro hdisc
    rw [cleanupBody, chRecordBuildMetrics, hdisc]
    rfl

/-- Witness for the amended C6: with every collaborator failing but the
client connected, all three `gracefulShutdown` steps are still attempted;
with the client disconnected, the body throws `chNotConnectedError` and
`cleanup` converts it into a logged line. -/
theorem cleanup_teardown_isolation_witness :
    ((gracefulShutdown ⟨true, true, true, true, true, true⟩).kafkaDisconnectAttempted = true ∧
      (gracefulShutdown ⟨true, true, true, true, true, true⟩).chDisconnectAttempted = true ∧
      (gracefulShutdown ⟨true, true, true, true, true, true⟩).rmdirAttempted = true) ∧
    (cleanup ⟨false⟩ none ⟨true, false, false, false, false, false⟩
      "dep-1" "proj" 0 5000).2 =
      { ranTeardown := true
        killedProcess := true
        metrics := none
        graceful := none
        caughtLog := ["Cleanup failed: ClickHouse client not connected"] } := by
  have h := cleanup_teardown_isolation ⟨false⟩ none
    ⟨true, false, false, false, false, false⟩ "dep-1" "proj" 0 5000
  refine ⟨(cleanup_teardown_isolation ⟨false⟩ none
    ⟨true, true, true, true, true, true⟩ "dep-1" "proj" 0 5000).1, ?_⟩
  exact h.2.1 chNotConnectedError (h.2.2 rfl) rfl

/-! ## Signal-triggered shutdown (server.js 231-241) -/

/-- What the SIGTERM/SIGINT handlers do: `await cleanup()` — with no
error argument — then `process.exit(0)`. -/
structure SignalOutcome where
  finalState : JobState
  result : CleanupResult
  exitCode : Nat
deriving DecidableEq, Repr

/-- The SIGTERM (and identically SIGINT) handler. -/
def handleTermSignal (st : JobState) (env : ShutdownEnv)
    (deploymentId projectUri : String) (startMs endMs : Int) :
    SignalOutcome :=
  let step := cleanup st none env deploymentId projectUri startMs endMs
  { finalState := step.1, result := step.2, exitCode := 0 }

/-- Claim C10: a SIGTERM/SIGINT-triggered shutdown calls `cleanup` with no
error argument, so — the analytical-database client being connected — the
recorded build metrics carry status `SUCCESS` and an empty failure
message, and the process exits with code 0; and if the build subprocess
is still running it is killed by teardown. -/
theorem sigterm_records_success_and_exits_zero (st : JobState)
    (hfresh : st.isExiting = false) (env : ShutdownEnv)
    (hconn : env.chConnected = true) (deploymentId projectUri : String)
    (startMs endMs : Int) :
    (handleTermSignal st env deploymentId projectUri startMs endMs).exitCode
      = 0 ∧
    (handleTermSignal st env deploymentId projectUri startMs endMs).result.metrics
      = some { deploymentId := deploymentId
               projectUri := projectUri
               startMs := startMs
               endMs := endMs
               durationSeconds := (endMs - startMs).fdiv 1000
               status := "SUCCESS"
               errorMessage := "" } ∧
    (env.processAlive = true →
      (handleTermSignal st env deploymentId projectUri
        startMs endMs).result.killedProcess = true) := by
  have hclean : cleanup st none env deploymentId projectUri startMs endMs =
      (⟨true⟩, { ranTeardown := true
                 killedProcess := env.processAlive
                 metrics := some
                   { deploymentId := deploymentId
                     projectUri := projectUri
                     startMs := startMs
                     endMs := endMs
                     durationSeconds := (endMs - startMs).fdiv 1000
                     status := "SUCCESS"
                     errorMessage := "" }
                 graceful := some (gracefulShutdown env)
                 caughtLog := [] }) := by
    rw [cleanup, if_neg (by simp [hfresh])]
    simp only [Option.isSome_none, Option.getD_none, Bool.false_eq_true,
      if_false]
    rw [cleanupBody, chRecordBuildMetrics, hconn]
    rfl
  refine ⟨rfl, ?_, ?_⟩
  · show (cleanup st none env deploymentId projectUri startMs endMs).2.metrics
      = _
    rw [hclean]
  · intro halive
    show (cleanup st none env deploymentId projectUri
      startMs endMs).2.killedProcess = true
    rw [hclean, halive]

/-- Witness for C10: a concrete SIGTERM during a live build records
`SUCCESS` with an empty message, kills the subprocess and exits 0. -/
theorem sigterm_records_success_and_exits_zero_witness :
    (handleTermSignal ⟨false⟩ ⟨true, true, false, false, false, false⟩
      "dep-1" "proj" 0 65000).exitCode = 0 ∧
    (handleTermSignal ⟨false⟩ ⟨true, true, false, false, false, false⟩
      "dep-1" "proj" 0 65000).result.metrics =
      some ⟨"dep-1", "proj", 0, 65000, 65, "SUCCESS", ""⟩ ∧
    (handleTermSignal ⟨false⟩ ⟨true, true, false, false, false, false⟩
      "dep-1" "proj" 0 65000).result.killedProcess = true := by
  have h := sigterm_records_success_and_exits_zero ⟨false⟩ rfl
    ⟨true, true, false, false, false, false⟩ rfl "dep-1" "proj" 0 65000
  exact ⟨h.1, by rw [h.2.1]; rfl, h.2.2 rfl⟩

end DeployNinja
